import Mathlib

/-!
Verification of the `OpenAIService` module of the Calo nutrition-tracker
repository.  The repository contains two near-identical copies of the
service: `server/src/services/openai.ts` (embedded below in namespace
`Srv`) and a second copy shipped inside `README.md` (namespace `Doc`).
Code shared verbatim by the two copies is embedded once at top level.

Modelling conventions:
* JavaScript numbers are rationals (`ℚ`); `NaN` is modelled by the
  separate type `JsNumber` where it can actually arise (optional
  nutrient fields, which the source computes as
  `Math.max(0, Number(x))` without a `|| 0` guard).
* Values read out of `JSON.parse` output are modelled by `JVal`
  (absent / null / boolean / number / string); fields that the source
  only ever treats as strings or arrays are modelled as `Option String`
  / `Option (List String)` where `none` covers the absent (or
  non-array) case.
* `Math.random()` is modelled as an ambient stream of rationals in
  `[0,1)` passed explicitly to every generator.
* The single outbound network call of each public operation is modelled
  by a `CallOutcome` value (transport error / empty content /
  unparseable reply / parsed payload); each operation returns its
  result paired with the number of network attempts it performed.
-/

/-- A JavaScript number: either a finite value or `NaN`. -/
inductive JsNumber where
  | nan
  | val (q : ℚ)
deriving DecidableEq, Repr

/-- A value read from a field of a `JSON.parse` result: `undef` is an
absent field, the rest are the JSON scalar kinds. -/
inductive JVal where
  | undef
  | null
  | bool (b : Bool)
  | num (q : ℚ)
  | str (s : String)
deriving DecidableEq, Repr

/-- Whitespace trimming on a character list. -/
def trimChars (l : List Char) : List Char :=
  ((l.dropWhile Char.isWhitespace).reverse.dropWhile Char.isWhitespace).reverse

/-- Decimal value of a digit list. -/
def digitsToNat (l : List Char) : ℕ :=
  l.foldl (fun acc c => 10 * acc + (c.toNat - 48)) 0

/-- JavaScript `Number(string)` restricted to the string shapes used in
this development: whitespace-only strings convert to `0`, decimal
natural-number literals to their value, anything else to `NaN`. -/
def strToNumber (s : String) : JsNumber :=
  let t := trimChars s.data
  if t = [] then JsNumber.val 0
  else if t.all Char.isDigit then JsNumber.val (digitsToNat t)
  else JsNumber.nan

/-- JavaScript `Number(v)` on a parsed JSON field. -/
def JVal.toNumber : JVal → JsNumber
  | .undef => JsNumber.nan
  | .null => JsNumber.val 0
  | .bool b => JsNumber.val (if b then 1 else 0)
  | .num q => JsNumber.val q
  | .str s => strToNumber s

/-- JavaScript truthiness of a parsed JSON field. -/
def JVal.truthy : JVal → Bool
  | .undef => false
  | .null => false
  | .bool b => b
  | .num q => decide (q ≠ 0)
  | .str s => decide (s ≠ "")

/-- JavaScript `x || d` where `x` is a number (`NaN` and `0` are falsy). -/
def JsNumber.orDefault : JsNumber → ℚ → ℚ
  | .nan, d => d
  | .val q, d => if q = 0 then d else q

/-- JavaScript `Math.max(0, x)`: `NaN` propagates. -/
def JsNumber.max0 : JsNumber → JsNumber
  | .nan => JsNumber.nan
  | .val q => JsNumber.val (max 0 q)

/-- JavaScript `s || d` for an optional string field (`""` is falsy). -/
def strOr (o : Option String) (d : String) : String :=
  match o with
  | none => d
  | some s => if s = "" then d else s

/-- JavaScript `s || d` where the default is itself possibly undefined. -/
def strOrOpt (o : Option String) (d : Option String) : Option String :=
  match o with
  | none => d
  | some s => if s = "" then d else some s

/-- JavaScript `x || d` for an optional (typed) number field. -/
def qOr (o : Option ℚ) (d : ℚ) : ℚ :=
  match o with
  | none => d
  | some v => if v = 0 then d else v

/-- JavaScript `Math.round`: round half towards positive infinity. -/
def jsRound (q : ℚ) : ℤ := ⌊q + 1 / 2⌋

/-- ASCII lowercasing, as `String.prototype.toLowerCase` on the inputs
appearing in this development. -/
def strLower (s : String) : String := String.mk (s.data.map Char.toLower)

/-- Substring occurrence test on character lists. -/
def hasSubstrAux (pat : List Char) : List Char → Bool
  | [] => pat.isEmpty
  | c :: rest => pat.isPrefixOf (c :: rest) || hasSubstrAux pat rest

/-- JavaScript `s.includes(pat)`. -/
def hasSubstring (s pat : String) : Bool := hasSubstrAux pat.data s.data

/-- The ambient `Math.random()` stream: each draw lies in `[0,1)`. -/
def RandStream : Type := ℕ → {q : ℚ // 0 ≤ q ∧ q < 1}

/-- Outcome of the single outbound API call an operation makes:
transport-level failure, a response with empty content, content whose
JSON extraction fails, or a successfully parsed payload. -/
inductive CallOutcome (α : Type) where
  | transportError
  | emptyContent
  | unparseable
  | parsed (p : α)
deriving DecidableEq, Repr

/-- The `MealAnalysisResult` interface.  Required nutrient fields and
`confidence` are plain numbers (the source always produces them through
`Math.max(0, _ || _)`, which cannot yield `NaN`); the optional nutrient
fields can hold `NaN` and are therefore `Option JsNumber`. -/
structure MealAnalysisResult where
  name : String
  description : Option String
  calories : ℚ
  protein : ℚ
  carbs : ℚ
  fat : ℚ
  fiber : Option JsNumber
  sugar : Option JsNumber
  sodium : Option JsNumber
  confidence : ℚ
  ingredients : Option (List String)
  servingSize : Option String
  cookingMethod : Option String
  healthNotes : Option String
deriving DecidableEq, Repr

/-- The fields the analysis/update coercion code reads off the object
returned by `JSON.parse`.  String-typed fields are modelled as optional
strings; numeric fields keep the full adversarial range of `JVal`;
`ingredients` is `some l` exactly when the parsed field is an array. -/
structure ParsedAnalysis where
  name : Option String
  description : Option String
  calories : JVal
  protein : JVal
  carbs : JVal
  fat : JVal
  fiber : JVal
  sugar : JVal
  sodium : JVal
  confidence : JVal
  ingredients : Option (List String)
  servingSize : Option String
  cookingMethod : Option String
  healthNotes : Option String
deriving DecidableEq, Repr

/-- The field-by-field coercion both copies apply to a successfully
parsed analysis payload (`openai.ts` lines 220-242, README copy lines
610-632). -/
def parseAnalysisResult (p : ParsedAnalysis) : MealAnalysisResult :=
  { name := strOr p.name "Unknown Food"
    description := some (strOr p.description "")
    calories := max 0 ((JVal.toNumber p.calories).orDefault 0)
    protein := max 0 ((JVal.toNumber p.protein).orDefault 0)
    carbs := max 0 ((JVal.toNumber p.carbs).orDefault 0)
    fat := max 0 ((JVal.toNumber p.fat).orDefault 0)
    fiber := if JVal.truthy p.fiber then some (JVal.toNumber p.fiber).max0 else none
    sugar := if JVal.truthy p.sugar then some (JVal.toNumber p.sugar).max0 else none
    sodium := if JVal.truthy p.sodium then some (JVal.toNumber p.sodium).max0 else none
    confidence := min 100 (max 0 ((JVal.toNumber p.confidence).orDefault 75))
    ingredients := some (p.ingredients.getD [])
    servingSize := some (strOr p.servingSize "1 serving")
    cookingMethod := some (strOr p.cookingMethod "Unknown")
    healthNotes := some (strOr p.healthNotes "") }

/-- Truthiness of the optional `updateText` argument. -/
def optStrTruthy : Option String → Bool
  | none => false
  | some s => decide (s ≠ "")

/-- The placeholder value the server copy compares the API key against. -/
def placeholderKey : String := "your_openai_api_key_here"

/-- Server copy key check: live branch taken iff the key is present,
non-empty and not the placeholder (`openai.ts` line 132). -/
def srvKeyOk : Option String → Bool
  | none => false
  | some s => !(s == "") && !(s == placeholderKey)

/-- README copy key check: live branch taken iff the key is present and
non-empty (README copy line 522); the placeholder is not special. -/
def docKeyTruthy : Option String → Bool
  | none => false
  | some s => !(s == "")

namespace Srv

/-- Server copy `getMockAnalysis` (`openai.ts` lines 258-284): base
values use seven successive `Math.random()` draws; if the update text
mentions "more" or "extra", calories/protein/carbs are bumped. -/
def getMockAnalysis (updateText : Option String) (r : RandStream) : MealAnalysisResult :=
  let base : MealAnalysisResult :=
    { name := "Mixed Meal"
      description := some (match updateText with
        | some t => if t = "" then "A nutritious meal" else "Meal with additional info: " ++ t
        | none => "A nutritious meal")
      calories := 350 + (⌊(r 0).1 * 200⌋ : ℤ)
      protein := 20 + (⌊(r 1).1 * 15⌋ : ℤ)
      carbs := 30 + (⌊(r 2).1 * 20⌋ : ℤ)
      fat := 12 + (⌊(r 3).1 * 10⌋ : ℤ)
      fiber := some (JsNumber.val (5 + (⌊(r 4).1 * 5⌋ : ℤ)))
      sugar := some (JsNumber.val (8 + (⌊(r 5).1 * 5⌋ : ℤ)))
      sodium := some (JsNumber.val (400 + (⌊(r 6).1 * 300⌋ : ℤ)))
      confidence := 75
      ingredients := some ["Mixed ingredients", "Vegetables", "Protein source"]
      servingSize := some "1 serving"
      cookingMethod := some "Prepared"
      healthNotes := some "Balanced meal with good nutrition profile" }
  if (match updateText with
      | some t => hasSubstring (strLower t) "more" || hasSubstring (strLower t) "extra"
      | none => false) then
    { base with
        calories := base.calories + 100
        protein := base.protein + 10
        carbs := base.carbs + 15 }
  else base

/-- Server copy `analyzeMealImage` (`openai.ts` lines 123-256): key
check first (zero network attempts when it fails), then one API call;
every failure outcome is replaced by the mock analysis, a parsed payload
is coerced field by field.  The second component counts network
attempts. -/
def analyzeMealImage (key : Option String) (updateText : Option String)
    (o : CallOutcome ParsedAnalysis) (r : RandStream) : MealAnalysisResult × ℕ :=
  if srvKeyOk key = false then (getMockAnalysis updateText r, 0)
  else
    match o with
    | .parsed p => (parseAnalysisResult p, 1)
    | _ => (getMockAnalysis updateText r, 1)

end Srv

/-- An ingredient entry of a planned meal. -/
structure Ingredient where
  name : String
  quantity : ℚ
  unit : String
  category : String
deriving DecidableEq, Repr

/-- A numbered instruction step of a planned meal. -/
structure Instruction where
  step : ℚ
  text : String
deriving DecidableEq, Repr

/-- One meal of a day of a `MealPlanResponse`. -/
structure PlannedMeal where
  name : String
  description : String
  meal_timing : String
  dietary_category : String
  prep_time_minutes : ℚ
  difficulty_level : ℚ
  calories : ℚ
  protein_g : ℚ
  carbs_g : ℚ
  fats_g : ℚ
  fiber_g : ℚ
  sugar_g : ℚ
  sodium_mg : ℚ
  ingredients : List Ingredient
  instructions : List Instruction
  allergens : List String
  image_url : String
  portion_multiplier : ℚ
  is_optional : Bool
deriving DecidableEq, Repr

/-- One day of a `MealPlanResponse`. -/
structure DayPlan where
  day : String
  day_index : ℚ
  meals : List PlannedMeal
deriving DecidableEq, Repr

/-- The `weekly_nutrition_summary` section of a `MealPlanResponse`. -/
structure WeeklySummary where
  avg_daily_calories : ℚ
  avg_daily_protein : ℚ
  avg_daily_carbs : ℚ
  avg_daily_fats : ℚ
  goal_adherence_percentage : ℚ
deriving DecidableEq, Repr

/-- The `MealPlanResponse` interface. -/
structure MealPlanResponse where
  weekly_plan : List DayPlan
  weekly_nutrition_summary : WeeklySummary
  shopping_tips : List String
  meal_prep_suggestions : List String
deriving DecidableEq, Repr

/-- The `weekly_plan` field of a parsed meal-plan payload as the
validation code sees it: a JavaScript-falsy value, a truthy non-array
value, or an actual array of days. -/
inductive WeeklyPlanField where
  | falsy
  | truthyNonArray
  | arr (l : List DayPlan)
deriving DecidableEq, Repr

/-- A parsed meal-plan payload.  Only `weekly_plan` is ever validated;
the remaining sections are passed through untouched by the
`as MealPlanResponse` cast. -/
structure ParsedMealPlan where
  weekly_plan : WeeklyPlanField
  weekly_nutrition_summary : WeeklySummary
  shopping_tips : List String
  meal_prep_suggestions : List String
deriving DecidableEq, Repr

/-- The fields of the `MealPlanRequest` interface that the embedded
logic reads.  The remaining fields (age, weight, preferences, allergies,
cooking constraints, ...) feed only the prompt text and are omitted. -/
structure MealPlanRequest where
  target_calories_daily : ℚ
  target_protein_daily : ℚ
  target_carbs_daily : ℚ
  target_fats_daily : ℚ
  meals_per_day : ℚ
  snacks_per_day : ℚ
deriving DecidableEq, Repr

/-- `generateMealTimings` (identical in both copies): up to three meal
slots and up to three snack slots, in a fixed order. -/
def generateMealTimings (mealsPerDay snacksPerDay : ℚ) : List String :=
  (if 1 ≤ mealsPerDay then ["BREAKFAST"] else []) ++
  (if 2 ≤ mealsPerDay then ["LUNCH"] else []) ++
  (if 3 ≤ mealsPerDay then ["DINNER"] else []) ++
  (if 1 ≤ snacksPerDay then ["MORNING_SNACK"] else []) ++
  (if 2 ≤ snacksPerDay then ["AFTERNOON_SNACK"] else []) ++
  (if 3 ≤ snacksPerDay then ["EVENING_SNACK"] else [])

/-- Replace the first underscore of a character list with a space, as
JavaScript `replace("_", " ")` (which replaces only the first match). -/
def replaceFirstUnderscore : List Char → List Char
  | [] => []
  | c :: rest => if c = '_' then ' ' :: rest else c :: replaceFirstUnderscore rest

/-- `timing.charAt(0) + timing.slice(1).toLowerCase().replace("_", " ")`. -/
def prettyTiming (t : String) : String :=
  match t.data with
  | [] => ""
  | c :: rest => String.mk (c :: replaceFirstUnderscore (rest.map Char.toLower))

/-- `timing.toLowerCase().replace("_", " ")`. -/
def lowerTiming (t : String) : String :=
  String.mk (replaceFirstUnderscore (t.data.map Char.toLower))

/-- The `days` array of the fallback meal-plan generator. -/
def daysList : List String :=
  ["Sunday", "Monday", "Tuesday", "Wednesday", "Thursday", "Friday", "Saturday"]

/-- `generateFallbackMealPlan` (identical in both copies): seven days
indexed 0-6, one synthetic meal per timing tag, macros equal to the
daily targets divided evenly across `meals_per_day + snacks_per_day`.
Takes the ambient random stream like every generator here; the source
draws nothing from it. -/
def generateFallbackMealPlan (userProfile : MealPlanRequest) (_r : RandStream) :
    MealPlanResponse :=
  let mealTimings := generateMealTimings userProfile.meals_per_day userProfile.snacks_per_day
  let perMeal : ℚ → ℚ := fun target =>
    ((jsRound (target / (userProfile.meals_per_day + userProfile.snacks_per_day)) : ℤ) : ℚ)
  let weeklyPlan : List DayPlan := daysList.enum.map (fun id =>
    { day := id.2
      day_index := (id.1 : ℚ)
      meals := mealTimings.map (fun timing =>
        { name := prettyTiming timing ++ " " ++ toString (id.1 + 1)
          description := "A nutritious " ++ lowerTiming timing ++ " meal"
          meal_timing := timing
          dietary_category := "BALANCED"
          prep_time_minutes := 15
          difficulty_level := 1
          calories := perMeal userProfile.target_calories_daily
          protein_g := perMeal userProfile.target_protein_daily
          carbs_g := perMeal userProfile.target_carbs_daily
          fats_g := perMeal userProfile.target_fats_daily
          fiber_g := 5
          sugar_g := 8
          sodium_mg := 400
          ingredients := [{ name := "Mixed ingredients", quantity := 100, unit := "g",
                            category := "Mixed" }]
          instructions := [{ step := 1, text := "Prepare according to your preferences" }]
          allergens := []
          image_url := "https://images.pexels.com/photos/1640777/pexels-photo-1640777.jpeg"
          portion_multiplier := 1
          is_optional := false }) })
  { weekly_plan := weeklyPlan
    weekly_nutrition_summary :=
      { avg_daily_calories := userProfile.target_calories_daily
        avg_daily_protein := userProfile.target_protein_daily
        avg_daily_carbs := userProfile.target_carbs_daily
        avg_daily_fats := userProfile.target_fats_daily
        goal_adherence_percentage := 80 }
    shopping_tips := ["Plan your shopping list based on the weekly meals",
                      "Buy seasonal produce for better prices"]
    meal_prep_suggestions := ["Prepare ingredients in advance", "Cook proteins in bulk"] }

/-- The value `return mealPlan as MealPlanResponse` produces once the
`weekly_plan` validation passed and the array `l` was extracted. -/
def acceptedPlan (p : ParsedMealPlan) (l : List DayPlan) : MealPlanResponse :=
  { weekly_plan := l
    weekly_nutrition_summary := p.weekly_nutrition_summary
    shopping_tips := p.shopping_tips
    meal_prep_suggestions := p.meal_prep_suggestions }

namespace Srv

/-- Server copy `generateMealPlan` (`openai.ts` lines 286-385): the
validation accepts any parsed payload whose `weekly_plan` is an array
(no length check); every failure routes to the fallback plan. -/
def generateMealPlan (key : Option String) (userProfile : MealPlanRequest)
    (o : CallOutcome ParsedMealPlan) (r : RandStream) : MealPlanResponse × ℕ :=
  if srvKeyOk key = false then (generateFallbackMealPlan userProfile r, 0)
  else
    match o with
    | .parsed p =>
        match p.weekly_plan with
        | .arr l => (acceptedPlan p l, 1)
        | _ => (generateFallbackMealPlan userProfile r, 1)
    | _ => (generateFallbackMealPlan userProfile r, 1)

end Srv

namespace Doc

/-- README copy `generateMealPlan` (README lines 849-1020): in addition
to the array check it rejects a `weekly_plan` whose length is not 7. -/
def generateMealPlan (key : Option String) (userProfile : MealPlanRequest)
    (o : CallOutcome ParsedMealPlan) (r : RandStream) : MealPlanResponse × ℕ :=
  if docKeyTruthy key = false then (generateFallbackMealPlan userProfile r, 0)
  else
    match o with
    | .parsed p =>
        match p.weekly_plan with
        | .arr l =>
            if l.length = 7 then (acceptedPlan p l, 1)
            else (generateFallbackMealPlan userProfile r, 1)
        | _ => (generateFallbackMealPlan userProfile r, 1)
    | _ => (generateFallbackMealPlan userProfile r, 1)

end Doc

/-- The `current_meal` section of a `ReplacementMealRequest`. -/
structure CurrentMeal where
  name : String
  meal_timing : String
  dietary_category : String
  calories : Option ℚ
  protein_g : Option ℚ
  carbs_g : Option ℚ
  fats_g : Option ℚ
deriving DecidableEq, Repr

/-- The part of the `ReplacementMealRequest` interface the embedded
logic reads; `user_preferences` and `nutrition_targets` feed only the
prompt text and are omitted. -/
structure ReplacementMealRequest where
  current_meal : CurrentMeal
deriving DecidableEq, Repr

/-- The shape of the replacement-meal object both fallback generators
produce (the live path returns the parsed payload untouched). -/
structure ReplacementMeal where
  name : String
  description : String
  meal_timing : String
  dietary_category : String
  prep_time_minutes : ℚ
  difficulty_level : ℚ
  calories : ℚ
  protein_g : ℚ
  carbs_g : ℚ
  fats_g : ℚ
  fiber_g : ℚ
  sugar_g : ℚ
  sodium_mg : ℚ
  ingredients : List Ingredient
  instructions : List Instruction
  allergens : List String
  image_url : String
  replacement_reason : String
deriving DecidableEq, Repr

/-- `generateFallbackReplacementMeal` (identical in both copies):
relabels the current meal, keeps its timing and category, and defaults
each falsy macro to the fixed constants 400/25/35/15. -/
def generateFallbackReplacementMeal (request : ReplacementMealRequest) (_r : RandStream) :
    ReplacementMeal :=
  { name := "Alternative " ++ request.current_meal.name
    description := "A replacement meal similar to " ++ request.current_meal.name
    meal_timing := request.current_meal.meal_timing
    dietary_category := request.current_meal.dietary_category
    prep_time_minutes := 20
    difficulty_level := 2
    calories := qOr request.current_meal.calories 400
    protein_g := qOr request.current_meal.protein_g 25
    carbs_g := qOr request.current_meal.carbs_g 35
    fats_g := qOr request.current_meal.fats_g 15
    fiber_g := 8
    sugar_g := 5
    sodium_mg := 600
    ingredients := [{ name := "Alternative ingredients", quantity := 100, unit := "g",
                      category := "Mixed" }]
    instructions := [{ step := 1, text := "Prepare according to your dietary preferences" }]
    allergens := []
    image_url := "https://images.pexels.com/photos/1640777/pexels-photo-1640777.jpeg"
    replacement_reason := "Generated as a safe alternative when AI generation fails" }

namespace Srv

/-- Server copy `generateReplacementMeal` (`openai.ts` lines 387-447):
no validation of the parsed payload; every failure routes to the
fallback replacement meal. -/
def generateReplacementMeal (key : Option String) (request : ReplacementMealRequest)
    (o : CallOutcome ReplacementMeal) (r : RandStream) : ReplacementMeal × ℕ :=
  if srvKeyOk key = false then (generateFallbackReplacementMeal request r, 0)
  else
    match o with
    | .parsed m => (m, 1)
    | _ => (generateFallbackReplacementMeal request r, 1)

/-- Server copy `generateNutritionInsights` (`openai.ts` lines 449-483):
splits the reply into lines, keeps the non-blank ones, returns at most
three; every failure (and a missing key) yields the empty list. -/
def generateNutritionInsights (key : Option String) (o : CallOutcome String) :
    List String × ℕ :=
  if srvKeyOk key = false then ([], 0)
  else
    match o with
    | .parsed content =>
        (if content = "" then []
         else (((content.splitOn "\n").filter (fun line => line.trim != "")).take 3), 1)
    | _ => ([], 1)

end Srv

namespace Doc

/-- README copy `generateReplacementMeal` (README lines 1022-1144): it
additionally rejects a parsed payload with a falsy `name` or
`meal_timing`, returning the fallback instead. -/
def generateReplacementMeal (key : Option String) (request : ReplacementMealRequest)
    (o : CallOutcome ReplacementMeal) (r : RandStream) : ReplacementMeal × ℕ :=
  if docKeyTruthy key = false then (generateFallbackReplacementMeal request r, 0)
  else
    match o with
    | .parsed m =>
        if m.name == "" || m.meal_timing == "" then
          (generateFallbackReplacementMeal request r, 1)
        else (m, 1)
    | _ => (generateFallbackReplacementMeal request r, 1)

/-- README copy `generateNutritionInsights` (README lines 1146-1202):
parses the reply as JSON; a JSON array is returned as is, anything else
(and every failure, and a missing key) yields the empty list.  The
payload is `some l` when the reply parsed to an array `l`. -/
def generateNutritionInsights (key : Option String)
    (o : CallOutcome (Option (List String))) : List String × ℕ :=
  if docKeyTruthy key = false then ([], 0)
  else
    match o with
    | .parsed (some l) => (l, 1)
    | .parsed none => ([], 1)
    | _ => ([], 1)

/-- The intensifier test of `getMockUpdate` on the lowercased text. -/
def containsIntensifier (lower : String) : Bool :=
  hasSubstring lower "more" || hasSubstring lower "extra" || hasSubstring lower "additional"

/-- The reduction test of `getMockUpdate` on the lowercased text. -/
def containsReduction (lower : String) : Bool :=
  hasSubstring lower "less" || hasSubstring lower "smaller"

/-- README copy `getMockUpdate` (README lines 820-847): scales the four
macros by 1.3 when the text contains an intensifier token, else by 0.7
when it contains a reduction token, else appends the text to the
description; an undefined description is string-coerced to
`"undefined"` by the JavaScript `+=`.  Takes the ambient random stream;
the source draws nothing from it. -/
def getMockUpdate (originalAnalysis : MealAnalysisResult) (updateText : String)
    (_r : RandStream) : MealAnalysisResult :=
  let lower := strLower updateText
  if containsIntensifier lower then
    { originalAnalysis with
        calories := ((jsRound (originalAnalysis.calories * (13 / 10)) : ℤ) : ℚ)
        protein := ((jsRound (originalAnalysis.protein * (13 / 10)) : ℤ) : ℚ)
        carbs := ((jsRound (originalAnalysis.carbs * (13 / 10)) : ℤ) : ℚ)
        fat := ((jsRound (originalAnalysis.fat * (13 / 10)) : ℤ) : ℚ)
        name := originalAnalysis.name ++ " (Updated)"
        description := some ((originalAnalysis.description.getD "undefined") ++
          " - Updated with: " ++ updateText) }
  else if containsReduction lower then
    { originalAnalysis with
        calories := ((jsRound (originalAnalysis.calories * (7 / 10)) : ℤ) : ℚ)
        protein := ((jsRound (originalAnalysis.protein * (7 / 10)) : ℤ) : ℚ)
        carbs := ((jsRound (originalAnalysis.carbs * (7 / 10)) : ℤ) : ℚ)
        fat := ((jsRound (originalAnalysis.fat * (7 / 10)) : ℤ) : ℚ)
        name := originalAnalysis.name ++ " (Smaller Portion)" }
  else
    { originalAnalysis with
        name := originalAnalysis.name ++ " (Updated)"
        description := some ((originalAnalysis.description.getD "undefined") ++
          " - Additional info: " ++ updateText) }

/-- The field-level merge README copy `updateMealAnalysis` applies to a
successfully parsed revision (README lines 771-806): every field of the
original is the default for the corresponding field of the result, with
the same truthiness-based tests as the analysis coercion. -/
def parseUpdateResult (originalAnalysis : MealAnalysisResult) (p : ParsedAnalysis) :
    MealAnalysisResult :=
  { name := strOr p.name originalAnalysis.name
    description := strOrOpt p.description originalAnalysis.description
    calories := max 0 ((JVal.toNumber p.calories).orDefault originalAnalysis.calories)
    protein := max 0 ((JVal.toNumber p.protein).orDefault originalAnalysis.protein)
    carbs := max 0 ((JVal.toNumber p.carbs).orDefault originalAnalysis.carbs)
    fat := max 0 ((JVal.toNumber p.fat).orDefault originalAnalysis.fat)
    fiber := if JVal.truthy p.fiber then some (JVal.toNumber p.fiber).max0
             else originalAnalysis.fiber
    sugar := if JVal.truthy p.sugar then some (JVal.toNumber p.sugar).max0
             else originalAnalysis.sugar
    sodium := if JVal.truthy p.sodium then some (JVal.toNumber p.sodium).max0
              else originalAnalysis.sodium
    confidence := min 100 (max 0 ((JVal.toNumber p.confidence).orDefault
      originalAnalysis.confidence))
    ingredients := match p.ingredients with
      | some l => some l
      | none => originalAnalysis.ingredients
    servingSize := strOrOpt p.servingSize originalAnalysis.servingSize
    cookingMethod := strOrOpt p.cookingMethod originalAnalysis.cookingMethod
    healthNotes := strOrOpt p.healthNotes originalAnalysis.healthNotes }

/-- README copy `updateMealAnalysis` (README lines 718-818): key check
first, then one API call; every failure outcome is replaced by the mock
update, a parsed revision is merged field by field over the original. -/
def updateMealAnalysis (key : Option String) (originalAnalysis : MealAnalysisResult)
    (updateText : String) (o : CallOutcome ParsedAnalysis) (r : RandStream) :
    MealAnalysisResult × ℕ :=
  if docKeyTruthy key = false then (getMockUpdate originalAnalysis updateText r, 0)
  else
    match o with
    | .parsed p => (parseUpdateResult originalAnalysis p, 1)
    | _ => (getMockUpdate originalAnalysis updateText r, 1)

end Doc

/-! Concrete fixtures used by counterexamples and witnesses. -/

/-- A random stream whose every draw is 0. -/
def randA : RandStream := fun _ => ⟨0, by norm_num⟩

/-- A random stream whose every draw is 1/2. -/
def randB : RandStream := fun _ => ⟨1 / 2, by norm_num⟩

/-- A profile with three meals and one snack per day. -/
def profileA : MealPlanRequest :=
  { target_calories_daily := 2000, target_protein_daily := 150,
    target_carbs_daily := 250, target_fats_daily := 67,
    meals_per_day := 3, snacks_per_day := 1 }

/-- A profile asking for four meals and no snacks per day. -/
def profileFour : MealPlanRequest :=
  { target_calories_daily := 2000, target_protein_daily := 150,
    target_carbs_daily := 250, target_fats_daily := 67,
    meals_per_day := 4, snacks_per_day := 0 }

/-- A parsed meal-plan payload whose `weekly_plan` is an empty array. -/
def pEmptyPlan : ParsedMealPlan :=
  { weekly_plan := WeeklyPlanField.arr []
    weekly_nutrition_summary :=
      { avg_daily_calories := 0, avg_daily_protein := 0, avg_daily_carbs := 0,
        avg_daily_fats := 0, goal_adherence_percentage := 0 }
    shopping_tips := []
    meal_prep_suggestions := [] }

/-- A concrete nutrition estimate used as the original of updates. -/
def origMeal : MealAnalysisResult :=
  { name := "Pasta", description := some "plate of pasta", calories := 100, protein := 10,
    carbs := 20, fat := 5, fiber := none, sugar := none, sodium := none, confidence := 80,
    ingredients := some ["pasta"], servingSize := some "1 serving",
    cookingMethod := some "Boiled", healthNotes := some "ok" }

/-! Claim C1. -/

/-- Claim C1 counterexample: on the server copy's live path, a parsed
response whose `weekly_plan` is an array of the wrong length passes the
validation (which only checks for an array) and is returned as is, so
`generateMealPlan` does not always return a `weekly_plan` of length 7. -/
theorem C1_counterexample :
    (Srv.generateMealPlan (some "sk-test") profileA (CallOutcome.parsed pEmptyPlan)
      randA).1.weekly_plan.length ≠ 7 := by
  decide

/-- Claim C1 (amended): the README copy of `generateMealPlan` returns a
`weekly_plan` of length exactly 7 on every path (its live path rejects a
missing, non-array or wrong-length `weekly_plan` and falls back), and
the fallback plan carries `day_index` values 0..6 in order.  The server
copy checks only that `weekly_plan` is an array, and neither copy
validates `day_index` on the live path. -/
theorem C1_theorem (key : Option String) (userProfile : MealPlanRequest)
    (o : CallOutcome ParsedMealPlan) (r : RandStream) :
    (Doc.generateMealPlan key userProfile o r).1.weekly_plan.length = 7 ∧
    ((generateFallbackMealPlan userProfile r).weekly_plan.map (fun d => d.day_index)) =
      [0, 1, 2, 3, 4, 5, 6] := by
  have hfb : ∀ (p' : MealPlanRequest) (r' : RandStream),
      (generateFallbackMealPlan p' r').weekly_plan.length = 7 := by
    intro p' r'
    simp [generateFallbackMealPlan, daysList]
  refine ⟨?_, ?_⟩
  · by_cases hk : docKeyTruthy key = false
    · simp [Doc.generateMealPlan, hk, hfb]
    · cases o with
      | parsed p =>
          cases hwp : p.weekly_plan with
          | arr l =>
              by_cases hl : l.length = 7
              · simp [Doc.generateMealPlan, hk, hwp, hl, acceptedPlan]
              · simp [Doc.generateMealPlan, hk, hwp, hl, hfb]
          | falsy => simp [Doc.generateMealPlan, hk, hwp, hfb]
          | truthyNonArray => simp [Doc.generateMealPlan, hk, hwp, hfb]
      | transportError => simp [Doc.generateMealPlan, hk, hfb]
      | emptyContent => simp [Doc.generateMealPlan, hk, hfb]
      | unparseable => simp [Doc.generateMealPlan, hk, hfb]
  · simp [generateFallbackMealPlan, daysList, List.enum]

/-! Claim C6. -/

/-- Claim C6 counterexample: for a profile asking for four meals and no
snacks, every day of the fallback plan holds only three meals (the
timing slots are capped at three meals and three snacks), not
`meals_per_day + snacks_per_day = 4`. -/
theorem C6_counterexample :
    profileFour.meals_per_day + profileFour.snacks_per_day = 4 ∧
    ((generateFallbackMealPlan profileFour randA).weekly_plan.map
      (fun d => d.meals.length)) = [3, 3, 3, 3, 3, 3, 3] ∧
    (3 : ℕ) ≠ 4 := by
  refine ⟨by norm_num [profileFour], by decide, by decide⟩

/-- Claim C6 (amended): every day of the fallback plan contains exactly
`(generateMealTimings meals_per_day snacks_per_day).length` meals, and
that count equals `meals_per_day + snacks_per_day` exactly for natural
counts of at most 3 each; the live path does not validate per-day meal
counts. -/
theorem C6_theorem :
    (∀ (userProfile : MealPlanRequest) (r : RandStream),
      ((generateFallbackMealPlan userProfile r).weekly_plan.map
        (fun d => d.meals.length)) =
      List.replicate 7
        (generateMealTimings userProfile.meals_per_day userProfile.snacks_per_day).length) ∧
    (∀ m s : ℕ, m ≤ 3 → s ≤ 3 →
      (generateMealTimings (m : ℚ) (s : ℚ)).length = m + s) := by
  constructor
  · intro userProfile r
    simp [generateFallbackMealPlan, daysList, List.replicate, List.enum,
      List.enumFrom, Function.comp]
  · intro m s hm hs
    interval_cases m <;> interval_cases s <;>
      simp [generateMealTimings] <;> norm_num

/-- Claim C6 witness: for three meals and one snack the derived timing
list has length four. -/
theorem C6_witness :
    (generateMealTimings ((3 : ℕ) : ℚ) ((1 : ℕ) : ℚ)).length = 3 + 1 :=
  C6_theorem.2 3 1 (by norm_num) (by norm_num)

/-! Claim C7. -/

/-- Claim C7 counterexample: the fallback analysis generator depends on
the ambient random draws, so two invocations with the same argument can
return different results. -/
theorem C7_counterexample :
    Srv.getMockAnalysis none randA ≠ Srv.getMockAnalysis none randB := by
  intro h
  have hc := congrArg MealAnalysisResult.calories h
  simp [Srv.getMockAnalysis, randA, randB] at hc
  norm_num at hc

/-- Claim C7 (amended): the fallback meal-plan, replacement-meal and
update generators are deterministic — their output does not depend on
the ambient random stream — while the fallback analysis generator does
depend on it (see the counterexample). -/
theorem C7_theorem :
    (∀ (userProfile : MealPlanRequest) (r r' : RandStream),
      generateFallbackMealPlan userProfile r = generateFallbackMealPlan userProfile r') ∧
    (∀ (request : ReplacementMealRequest) (r r' : RandStream),
      generateFallbackReplacementMeal request r = generateFallbackReplacementMeal request r') ∧
    (∀ (orig : MealAnalysisResult) (t : String) (r r' : RandStream),
      Doc.getMockUpdate orig t r = Doc.getMockUpdate orig t r') := by
  exact ⟨fun _ _ _ => rfl, fun _ _ _ => rfl, fun _ _ _ _ => rfl⟩

/-! Claim C3. -/

/-- Claim C3 counterexample: the intensifier test runs first, so an
update text containing both an intensifier and a reduction token (here
"more but smaller") is scaled by 1.3, not by the 0.7 the claim assigns
to any text containing a reduction token. -/
theorem C3_counterexample :
    Doc.containsReduction (strLower "more but smaller") = true ∧
    (Doc.updateMealAnalysis none origMeal "more but smaller" CallOutcome.transportError
      randA).1.calories = 130 ∧
    (130 : ℚ) ≠ ((jsRound ((100 : ℚ) * (7 / 10)) : ℤ) : ℚ) := by
  refine ⟨by decide, ?_, by norm_num [jsRound]⟩
  have h : Doc.containsIntensifier (strLower "more but smaller") = true := by decide
  simp [Doc.updateMealAnalysis, docKeyTruthy, Doc.getMockUpdate, h, origMeal, jsRound]
  norm_num

/-- Claim C3 (amended): in fallback mode, an update text containing an
intensifier token scales the four macros by 1.3 (rounded); a text
containing a reduction token but no intensifier token scales them by
0.7; a text containing neither leaves the macros unchanged and appends
the text to the description. -/
theorem C3_theorem (orig : MealAnalysisResult) (t : String) (o : CallOutcome ParsedAnalysis)
    (r : RandStream) :
    (Doc.containsIntensifier (strLower t) = true →
      (Doc.updateMealAnalysis none orig t o r).1.calories =
        ((jsRound (orig.calories * (13 / 10)) : ℤ) : ℚ) ∧
      (Doc.updateMealAnalysis none orig t o r).1.protein =
        ((jsRound (orig.protein * (13 / 10)) : ℤ) : ℚ) ∧
      (Doc.updateMealAnalysis none orig t o r).1.carbs =
        ((jsRound (orig.carbs * (13 / 10)) : ℤ) : ℚ) ∧
      (Doc.updateMealAnalysis none orig t o r).1.fat =
        ((jsRound (orig.fat * (13 / 10)) : ℤ) : ℚ)) ∧
    (Doc.containsIntensifier (strLower t) = false →
      Doc.containsReduction (strLower t) = true →
      (Doc.updateMealAnalysis none orig t o r).1.calories =
        ((jsRound (orig.calories * (7 / 10)) : ℤ) : ℚ) ∧
      (Doc.updateMealAnalysis none orig t o r).1.protein =
        ((jsRound (orig.protein * (7 / 10)) : ℤ) : ℚ) ∧
      (Doc.updateMealAnalysis none orig t o r).1.carbs =
        ((jsRound (orig.carbs * (7 / 10)) : ℤ) : ℚ) ∧
      (Doc.updateMealAnalysis none orig t o r).1.fat =
        ((jsRound (orig.fat * (7 / 10)) : ℤ) : ℚ)) ∧
    (Doc.containsIntensifier (strLower t) = false →
      Doc.containsReduction (strLower t) = false →
      (Doc.updateMealAnalysis none orig t o r).1.calories = orig.calories ∧
      (Doc.updateMealAnalysis none orig t o r).1.protein = orig.protein ∧
      (Doc.updateMealAnalysis none orig t o r).1.carbs = orig.carbs ∧
      (Doc.updateMealAnalysis none orig t o r).1.fat = orig.fat ∧
      (Doc.updateMealAnalysis none orig t o r).1.description =
        some ((orig.description.getD "undefined") ++ " - Additional info: " ++ t)) := by
  refine ⟨?_, ?_, ?_⟩
  · intro h
    simp [Doc.updateMealAnalysis, docKeyTruthy, Doc.getMockUpdate, h]
  · intro h1 h2
    simp [Doc.updateMealAnalysis, docKeyTruthy, Doc.getMockUpdate, h1, h2]
  · intro h1 h2
    simp [Doc.updateMealAnalysis, docKeyTruthy, Doc.getMockUpdate, h1, h2]

/-- Claim C3 witness: "give me more" contains an intensifier token and
the fallback update scales calories by 1.3. -/
theorem C3_witness :
    Doc.containsIntensifier (strLower "give me more") = true ∧
    (Doc.updateMealAnalysis none origMeal "give me more" CallOutcome.transportError
      randA).1.calories = ((jsRound (origMeal.calories * (13 / 10)) : ℤ) : ℚ) :=
  ⟨by decide,
   ((C3_theorem origMeal "give me more" CallOutcome.transportError randA).1 (by decide)).1⟩

/-! Claim C8. -/

/-- A parsed revision payload with every field absent. -/
def pAllAbsent : ParsedAnalysis :=
  { name := none, description := none, calories := JVal.undef, protein := JVal.undef,
    carbs := JVal.undef, fat := JVal.undef, fiber := JVal.undef, sugar := JVal.undef,
    sodium := JVal.undef, confidence := JVal.undef, ingredients := none,
    servingSize := none, cookingMethod := none, healthNotes := none }

/-- A parsed revision payload whose `calories` field is present and 0. -/
def pZeroCal : ParsedAnalysis := { pAllAbsent with calories := JVal.num 0 }

/-- Claim C8 counterexample: on the live update path, a revised payload
whose `calories` field is present with value 0 does not make the result
0 — the falsy test silently keeps the original's 100 instead of the
parsed value. -/
theorem C8_counterexample :
    pZeroCal.calories = JVal.num 0 ∧
    (Doc.updateMealAnalysis (some "sk-live") origMeal "calories are zero"
      (CallOutcome.parsed pZeroCal) randA).1.calories = 100 ∧
    (100 : ℚ) ≠ 0 := by
  refine ⟨by decide, ?_, by norm_num⟩
  simp [Doc.updateMealAnalysis, docKeyTruthy, Doc.parseUpdateResult, pZeroCal, pAllAbsent,
    origMeal, JVal.toNumber, JsNumber.orDefault]

/-- Claim C8 (amended): on the live update path every field absent from
the revised payload keeps the original's value (nutrient fields are
re-clamped at 0 and confidence re-clamped into [0,100] in the process);
moreover a present but falsy parsed value — such as a nutrient equal to
0 — also keeps the original's value rather than the parsed one. -/
theorem C8_theorem (orig : MealAnalysisResult) (p : ParsedAnalysis) :
    (p.name = none → (Doc.parseUpdateResult orig p).name = orig.name) ∧
    (p.description = none → (Doc.parseUpdateResult orig p).description = orig.description) ∧
    (p.calories = JVal.undef →
      (Doc.parseUpdateResult orig p).calories = max 0 orig.calories) ∧
    (p.calories = JVal.num 0 →
      (Doc.parseUpdateResult orig p).calories = max 0 orig.calories) ∧
    (p.protein = JVal.undef →
      (Doc.parseUpdateResult orig p).protein = max 0 orig.protein) ∧
    (p.carbs = JVal.undef → (Doc.parseUpdateResult orig p).carbs = max 0 orig.carbs) ∧
    (p.fat = JVal.undef → (Doc.parseUpdateResult orig p).fat = max 0 orig.fat) ∧
    (p.fiber = JVal.undef → (Doc.parseUpdateResult orig p).fiber = orig.fiber) ∧
    (p.fiber = JVal.num 0 → (Doc.parseUpdateResult orig p).fiber = orig.fiber) ∧
    (p.sugar = JVal.undef → (Doc.parseUpdateResult orig p).sugar = orig.sugar) ∧
    (p.sodium = JVal.undef → (Doc.parseUpdateResult orig p).sodium = orig.sodium) ∧
    (p.confidence = JVal.undef →
      (Doc.parseUpdateResult orig p).confidence = min 100 (max 0 orig.confidence)) ∧
    (p.ingredients = none →
      (Doc.parseUpdateResult orig p).ingredients = orig.ingredients) ∧
    (p.servingSize = none →
      (Doc.parseUpdateResult orig p).servingSize = orig.servingSize) ∧
    (p.cookingMethod = none →
      (Doc.parseUpdateResult orig p).cookingMethod = orig.cookingMethod) ∧
    (p.healthNotes = none →
      (Doc.parseUpdateResult orig p).healthNotes = orig.healthNotes) := by
  refine ⟨?_, ?_, ?_, ?_, ?_, ?_, ?_, ?_, ?_, ?_, ?_, ?_, ?_, ?_, ?_, ?_⟩ <;>
    intro h <;>
    simp [Doc.parseUpdateResult, h, strOr, strOrOpt, JVal.toNumber, JsNumber.orDefault,
      JVal.truthy]

/-- Claim C8 witness: with an all-absent revision over a concrete
original, name, calories and fiber all carry forward. -/
theorem C8_witness :
    (Doc.parseUpdateResult origMeal pAllAbsent).name = origMeal.name ∧
    (Doc.parseUpdateResult origMeal pAllAbsent).calories = max 0 origMeal.calories ∧
    (Doc.parseUpdateResult origMeal pAllAbsent).fiber = origMeal.fiber :=
  ⟨(C8_theorem origMeal pAllAbsent).1 rfl,
   (C8_theorem origMeal pAllAbsent).2.2.1 rfl,
   (C8_theorem origMeal pAllAbsent).2.2.2.2.2.2.2.1 rfl⟩

/-! Claim C9. -/

/-- A replacement request whose current meal has no macros set. -/
def replReq : ReplacementMealRequest :=
  { current_meal :=
      { name := "Oatmeal"
        meal_timing := "BREAKFAST"
        dietary_category := "BALANCED"
        calories := none
        protein_g := none
        carbs_g := none
        fats_g := none } }

/-- Claim C9: the fallback replacement meal is named
"Alternative <original name>", keeps the current meal's timing and
dietary category, defaults each unset macro to 400/25/35/15, and stamps
the fixed degraded-mode `replacement_reason`; with no key configured the
public operation returns exactly this fallback with zero network
attempts. -/
theorem C9_theorem (request : ReplacementMealRequest) (r : RandStream) :
    (generateFallbackReplacementMeal request r).name =
      "Alternative " ++ request.current_meal.name ∧
    (generateFallbackReplacementMeal request r).meal_timing =
      request.current_meal.meal_timing ∧
    (generateFallbackReplacementMeal request r).dietary_category =
      request.current_meal.dietary_category ∧
    (generateFallbackReplacementMeal request r).replacement_reason =
      "Generated as a safe alternative when AI generation fails" ∧
    (request.current_meal.calories = none →
      (generateFallbackReplacementMeal request r).calories = 400) ∧
    (request.current_meal.protein_g = none →
      (generateFallbackReplacementMeal request r).protein_g = 25) ∧
    (request.current_meal.carbs_g = none →
      (generateFallbackReplacementMeal request r).carbs_g = 35) ∧
    (request.current_meal.fats_g = none →
      (generateFallbackReplacementMeal request r).fats_g = 15) ∧
    (∀ o, Srv.generateReplacementMeal none request o r =
      (generateFallbackReplacementMeal request r, 0)) := by
  refine ⟨rfl, rfl, rfl, rfl, ?_, ?_, ?_, ?_, ?_⟩
  · intro h
    simp [generateFallbackReplacementMeal, qOr, h]
  · intro h
    simp [generateFallbackReplacementMeal, qOr, h]
  · intro h
    simp [generateFallbackReplacementMeal, qOr, h]
  · intro h
    simp [generateFallbackReplacementMeal, qOr, h]
  · intro o
    simp [Srv.generateReplacementMeal, srvKeyOk]

/-- Claim C9 witness: for a current meal with no macros set the
fallback replacement carries exactly the fixed constants. -/
theorem C9_witness :
    (generateFallbackReplacementMeal replReq randA).calories = 400 ∧
    (generateFallbackReplacementMeal replReq randA).protein_g = 25 ∧
    (generateFallbackReplacementMeal replReq randA).carbs_g = 35 ∧
    (generateFallbackReplacementMeal replReq randA).fats_g = 15 :=
  ⟨(C9_theorem replReq randA).2.2.2.2.1 rfl,
   (C9_theorem replReq randA).2.2.2.2.2.1 rfl,
   (C9_theorem replReq randA).2.2.2.2.2.2.1 rfl,
   (C9_theorem replReq randA).2.2.2.2.2.2.2.1 rfl⟩

/-! Claim C10. -/

/-- A parsed payload whose optional nutrients are present and 0. -/
def pZeroOpt : ParsedAnalysis :=
  { pAllAbsent with
      name := some "Rice"
      calories := JVal.num 200
      fiber := JVal.num 0
      sugar := JVal.num 0
      sodium := JVal.num 0 }

/-- Claim C10: on the live analysis path a falsy parsed optional
nutrient — in particular a model-reported 0 — yields an absent field in
the returned estimate rather than the number 0, and the same falsy test
in the update merge silently keeps the original's value for these
fields. -/
theorem C10_theorem (key : Option String) (u : Option String) (p : ParsedAnalysis)
    (r : RandStream) (orig : MealAnalysisResult) :
    JVal.truthy (JVal.num 0) = false ∧
    (srvKeyOk key = true → JVal.truthy p.fiber = false →
      (Srv.analyzeMealImage key u (CallOutcome.parsed p) r).1.fiber = none) ∧
    (srvKeyOk key = true → JVal.truthy p.sugar = false →
      (Srv.analyzeMealImage key u (CallOutcome.parsed p) r).1.sugar = none) ∧
    (srvKeyOk key = true → JVal.truthy p.sodium = false →
      (Srv.analyzeMealImage key u (CallOutcome.parsed p) r).1.sodium = none) ∧
    (JVal.truthy p.fiber = false → (Doc.parseUpdateResult orig p).fiber = orig.fiber) ∧
    (JVal.truthy p.sugar = false → (Doc.parseUpdateResult orig p).sugar = orig.sugar) ∧
    (JVal.truthy p.sodium = false →
      (Doc.parseUpdateResult orig p).sodium = orig.sodium) := by
  refine ⟨by decide, ?_, ?_, ?_, ?_, ?_, ?_⟩
  · intro hk ht
    simp [Srv.analyzeMealImage, hk, parseAnalysisResult, ht]
  · intro hk ht
    simp [Srv.analyzeMealImage, hk, parseAnalysisResult, ht]
  · intro hk ht
    simp [Srv.analyzeMealImage, hk, parseAnalysisResult, ht]
  · intro ht
    simp [Doc.parseUpdateResult, ht]
  · intro ht
    simp [Doc.parseUpdateResult, ht]
  · intro ht
    simp [Doc.parseUpdateResult, ht]

/-- Claim C10 witness: a payload reporting fiber/sugar/sodium as 0
yields absent optional nutrients on the live path, and keeps the
original's sugar in the update merge. -/
theorem C10_witness :
    (Srv.analyzeMealImage (some "sk-live") none (CallOutcome.parsed pZeroOpt)
      randA).1.fiber = none ∧
    (Doc.parseUpdateResult origMeal pZeroOpt).sugar = origMeal.sugar :=
  ⟨(C10_theorem (some "sk-live") none pZeroOpt randA origMeal).2.1 (by decide) (by decide),
   (C10_theorem (some "sk-live") none pZeroOpt randA origMeal).2.2.2.2.2.1 (by decide)⟩

/-! Shared case-analysis lemmas: each public operation returns either
its fallback value or the coercion of a parsed payload. -/

/-- `analyzeMealImage` resolves to the mock analysis or to the coerced
parsed payload. -/
theorem analyze_cases (key : Option String) (u : Option String)
    (o : CallOutcome ParsedAnalysis) (r : RandStream) :
    (Srv.analyzeMealImage key u o r).1 = Srv.getMockAnalysis u r ∨
    ∃ p, o = CallOutcome.parsed p ∧
      (Srv.analyzeMealImage key u o r).1 = parseAnalysisResult p := by
  by_cases hk : srvKeyOk key = false
  · left; simp [Srv.analyzeMealImage, hk]
  · cases o with
    | parsed p => right; exact ⟨p, rfl, by simp [Srv.analyzeMealImage, hk]⟩
    | transportError => left; simp [Srv.analyzeMealImage, hk]
    | emptyContent => left; simp [Srv.analyzeMealImage, hk]
    | unparseable => left; simp [Srv.analyzeMealImage, hk]

/-- Server copy `generateMealPlan` resolves to the fallback plan or to
an accepted parsed plan whose `weekly_plan` is an array. -/
theorem srvPlan_cases (key : Option String) (userProfile : MealPlanRequest)
    (o : CallOutcome ParsedMealPlan) (r : RandStream) :
    (Srv.generateMealPlan key userProfile o r).1 = generateFallbackMealPlan userProfile r ∨
    ∃ p l, o = CallOutcome.parsed p ∧ p.weekly_plan = WeeklyPlanField.arr l ∧
      (Srv.generateMealPlan key userProfile o r).1 = acceptedPlan p l := by
  by_cases hk : srvKeyOk key = false
  · left; simp [Srv.generateMealPlan, hk]
  · cases o with
    | parsed p =>
        cases hwp : p.weekly_plan with
        | arr l => right; exact ⟨p, l, rfl, hwp, by simp [Srv.generateMealPlan, hk, hwp]⟩
        | falsy => left; simp [Srv.generateMealPlan, hk, hwp]
        | truthyNonArray => left; simp [Srv.generateMealPlan, hk, hwp]
    | transportError => left; simp [Srv.generateMealPlan, hk]
    | emptyContent => left; simp [Srv.generateMealPlan, hk]
    | unparseable => left; simp [Srv.generateMealPlan, hk]

/-- README copy `generateMealPlan` resolves to the fallback plan or to
an accepted parsed plan. -/
theorem docPlan_cases (key : Option String) (userProfile : MealPlanRequest)
    (o : CallOutcome ParsedMealPlan) (r : RandStream) :
    (Doc.generateMealPlan key userProfile o r).1 = generateFallbackMealPlan userProfile r ∨
    ∃ p l, o = CallOutcome.parsed p ∧ p.weekly_plan = WeeklyPlanField.arr l ∧
      (Doc.generateMealPlan key userProfile o r).1 = acceptedPlan p l := by
  by_cases hk : docKeyTruthy key = false
  · left; simp [Doc.generateMealPlan, hk]
  · cases o with
    | parsed p =>
        cases hwp : p.weekly_plan with
        | arr l =>
            by_cases hl : l.length = 7
            · right; exact ⟨p, l, rfl, hwp, by simp [Doc.generateMealPlan, hk, hwp, hl]⟩
            · left; simp [Doc.generateMealPlan, hk, hwp, hl]
        | falsy => left; simp [Doc.generateMealPlan, hk, hwp]
        | truthyNonArray => left; simp [Doc.generateMealPlan, hk, hwp]
    | transportError => left; simp [Doc.generateMealPlan, hk]
    | emptyContent => left; simp [Doc.generateMealPlan, hk]
    | unparseable => left; simp [Doc.generateMealPlan, hk]

/-- Server copy `generateReplacementMeal` resolves to the fallback meal
or to the parsed payload. -/
theorem srvRepl_cases (key : Option String) (request : ReplacementMealRequest)
    (o : CallOutcome ReplacementMeal) (r : RandStream) :
    (Srv.generateReplacementMeal key request o r).1 =
      generateFallbackReplacementMeal request r ∨
    ∃ m, o = CallOutcome.parsed m ∧ (Srv.generateReplacementMeal key request o r).1 = m := by
  by_cases hk : srvKeyOk key = false
  · left; simp [Srv.generateReplacementMeal, hk]
  · cases o with
    | parsed m => right; exact ⟨m, rfl, by simp [Srv.generateReplacementMeal, hk]⟩
    | transportError => left; simp [Srv.generateReplacementMeal, hk]
    | emptyContent => left; simp [Srv.generateReplacementMeal, hk]
    | unparseable => left; simp [Srv.generateReplacementMeal, hk]

/-- README copy `generateReplacementMeal` resolves to the fallback meal
or to a parsed payload that passed the name/timing check. -/
theorem docRepl_cases (key : Option String) (request : ReplacementMealRequest)
    (o : CallOutcome ReplacementMeal) (r : RandStream) :
    (Doc.generateReplacementMeal key request o r).1 =
      generateFallbackReplacementMeal request r ∨
    ∃ m, o = CallOutcome.parsed m ∧ (Doc.generateReplacementMeal key request o r).1 = m := by
  by_cases hk : docKeyTruthy key = false
  · left; simp [Doc.generateReplacementMeal, hk]
  · cases o with
    | parsed m =>
        by_cases hv : (m.name == "" || m.meal_timing == "") = true
        · left; simp [Doc.generateReplacementMeal, hk, hv]
        · right; exact ⟨m, rfl, by simp [Doc.generateReplacementMeal, hk, hv]⟩
    | transportError => left; simp [Doc.generateReplacementMeal, hk]
    | emptyContent => left; simp [Doc.generateReplacementMeal, hk]
    | unparseable => left; simp [Doc.generateReplacementMeal, hk]

/-- README copy `updateMealAnalysis` resolves to the mock update or to
the field-level merge of a parsed revision. -/
theorem update_cases (key : Option String) (orig : MealAnalysisResult) (t : String)
    (o : CallOutcome ParsedAnalysis) (r : RandStream) :
    (Doc.updateMealAnalysis key orig t o r).1 = Doc.getMockUpdate orig t r ∨
    ∃ p, o = CallOutcome.parsed p ∧
      (Doc.updateMealAnalysis key orig t o r).1 = Doc.parseUpdateResult orig p := by
  by_cases hk : docKeyTruthy key = false
  · left; simp [Doc.updateMealAnalysis, hk]
  · cases o with
    | parsed p => right; exact ⟨p, rfl, by simp [Doc.updateMealAnalysis, hk]⟩
    | transportError => left; simp [Doc.updateMealAnalysis, hk]
    | emptyContent => left; simp [Doc.updateMealAnalysis, hk]
    | unparseable => left; simp [Doc.updateMealAnalysis, hk]

/-- Server copy `generateNutritionInsights` resolves to the empty list
or to the trimmed line split of the reply. -/
theorem srvInsights_cases (key : Option String) (o : CallOutcome String) :
    (Srv.generateNutritionInsights key o).1 = [] ∨
    ∃ s, o = CallOutcome.parsed s ∧ (Srv.generateNutritionInsights key o).1 =
      (if s = "" then []
       else ((s.splitOn "\n").filter (fun line => line.trim != "")).take 3) := by
  by_cases hk : srvKeyOk key = false
  · left; simp [Srv.generateNutritionInsights, hk]
  · cases o with
    | parsed s => right; exact ⟨s, rfl, by simp [Srv.generateNutritionInsights, hk]⟩
    | transportError => left; simp [Srv.generateNutritionInsights, hk]
    | emptyContent => left; simp [Srv.generateNutritionInsights, hk]
    | unparseable => left; simp [Srv.generateNutritionInsights, hk]

/-- README copy `generateNutritionInsights` resolves to the empty list
or to a reply that parsed to an array. -/
theorem docInsights_cases (key : Option String) (o : CallOutcome (Option (List String))) :
    (Doc.generateNutritionInsights key o).1 = [] ∨
    ∃ l, o = CallOutcome.parsed (some l) ∧ (Doc.generateNutritionInsights key o).1 = l := by
  by_cases hk : docKeyTruthy key = false
  · left; simp [Doc.generateNutritionInsights, hk]
  · cases o with
    | parsed mp =>
        cases mp with
        | some l => right; exact ⟨l, rfl, by simp [Doc.generateNutritionInsights, hk]⟩
        | none => left; simp [Doc.generateNutritionInsights, hk]
    | transportError => left; simp [Doc.generateNutritionInsights, hk]
    | emptyContent => left; simp [Doc.generateNutritionInsights, hk]
    | unparseable => left; simp [Doc.generateNutritionInsights, hk]

/-! Claim C2. -/

/-- Bounds the required fields of every estimate must satisfy. -/
def requiredBoundsOk (m : MealAnalysisResult) : Prop :=
  0 ≤ m.calories ∧ 0 ≤ m.protein ∧ 0 ≤ m.carbs ∧ 0 ≤ m.fat ∧
  0 ≤ m.confidence ∧ m.confidence ≤ 100

/-- A random draw scaled by a nonnegative constant has a nonnegative
floor. -/
theorem randScaled_nonneg (r : RandStream) (i : ℕ) (c : ℚ) (hc : 0 ≤ c) :
    (0 : ℚ) ≤ ((⌊(r i).1 * c⌋ : ℤ) : ℚ) := by
  exact_mod_cast Int.floor_nonneg.mpr (mul_nonneg (r i).2.1 hc)

/-- Rounding a product of nonnegative numbers yields a nonnegative
value. -/
theorem jsRound_scale_nonneg (c k : ℚ) (hc : 0 ≤ c) (hk : 0 ≤ k) :
    (0 : ℚ) ≤ ((jsRound (c * k) : ℤ) : ℚ) := by
  unfold jsRound
  have h : (0 : ℚ) ≤ c * k + 1 / 2 := by
    have := mul_nonneg hc hk
    linarith
  exact_mod_cast Int.floor_nonneg.mpr h

/-- The mock analysis satisfies the required bounds. -/
theorem getMockAnalysis_bounds (u : Option String) (r : RandStream) :
    requiredBoundsOk (Srv.getMockAnalysis u r) := by
  have h0 := randScaled_nonneg r 0 200 (by norm_num)
  have h1 := randScaled_nonneg r 1 15 (by norm_num)
  have h2 := randScaled_nonneg r 2 20 (by norm_num)
  have h3 := randScaled_nonneg r 3 10 (by norm_num)
  simp only [Srv.getMockAnalysis, requiredBoundsOk]
  split
  · refine ⟨?_, ?_, ?_, ?_, by norm_num, by norm_num⟩ <;> simp <;> linarith
  · refine ⟨?_, ?_, ?_, ?_, by norm_num, by norm_num⟩ <;> simp <;> linarith

/-- The analysis coercion satisfies the required bounds for every
parsed payload. -/
theorem parseAnalysis_bounds (p : ParsedAnalysis) :
    requiredBoundsOk (parseAnalysisResult p) := by
  refine ⟨le_max_left _ _, le_max_left _ _, le_max_left _ _, le_max_left _ _, ?_, ?_⟩
  · exact le_min (by norm_num) (le_max_left _ _)
  · exact min_le_left _ _

/-- The update merge satisfies the required bounds for every parsed
revision, regardless of the original. -/
theorem parseUpdate_bounds (orig : MealAnalysisResult) (p : ParsedAnalysis) :
    requiredBoundsOk (Doc.parseUpdateResult orig p) := by
  refine ⟨le_max_left _ _, le_max_left _ _, le_max_left _ _, le_max_left _ _, ?_, ?_⟩
  · exact le_min (by norm_num) (le_max_left _ _)
  · exact min_le_left _ _

/-- The mock update preserves the required bounds. -/
theorem getMockUpdate_bounds (orig : MealAnalysisResult) (t : String) (r : RandStream)
    (h : requiredBoundsOk orig) : requiredBoundsOk (Doc.getMockUpdate orig t r) := by
  obtain ⟨h1, h2, h3, h4, h5, h6⟩ := h
  simp only [Doc.getMockUpdate, requiredBoundsOk]
  split
  · exact ⟨jsRound_scale_nonneg _ _ h1 (by norm_num),
      jsRound_scale_nonneg _ _ h2 (by norm_num),
      jsRound_scale_nonneg _ _ h3 (by norm_num),
      jsRound_scale_nonneg _ _ h4 (by norm_num), h5, h6⟩
  · split
    · exact ⟨jsRound_scale_nonneg _ _ h1 (by norm_num),
        jsRound_scale_nonneg _ _ h2 (by norm_num),
        jsRound_scale_nonneg _ _ h3 (by norm_num),
        jsRound_scale_nonneg _ _ h4 (by norm_num), h5, h6⟩
    · exact ⟨h1, h2, h3, h4, h5, h6⟩

/-- The fiber field of the mock analysis. -/
theorem getMockAnalysis_fiber (u : Option String) (r : RandStream) :
    (Srv.getMockAnalysis u r).fiber =
      some (JsNumber.val (5 + ((⌊(r 4).1 * 5⌋ : ℤ) : ℚ))) := by
  simp only [Srv.getMockAnalysis]
  split <;> rfl

/-- The sugar field of the mock analysis. -/
theorem getMockAnalysis_sugar (u : Option String) (r : RandStream) :
    (Srv.getMockAnalysis u r).sugar =
      some (JsNumber.val (8 + ((⌊(r 5).1 * 5⌋ : ℤ) : ℚ))) := by
  simp only [Srv.getMockAnalysis]
  split <;> rfl

/-- The sodium field of the mock analysis. -/
theorem getMockAnalysis_sodium (u : Option String) (r : RandStream) :
    (Srv.getMockAnalysis u r).sodium =
      some (JsNumber.val (400 + ((⌊(r 6).1 * 300⌋ : ℤ) : ℚ))) := by
  simp only [Srv.getMockAnalysis]
  split <;> rfl

/-- A coerced optional nutrient that is a finite number is nonnegative
(the `NaN` case is exactly what escapes this lemma). -/
theorem optNutrient_nonneg (j : JVal) (q : ℚ)
    (h : (if JVal.truthy j then some (JVal.toNumber j).max0 else none) =
      some (JsNumber.val q)) : 0 ≤ q := by
  by_cases ht : JVal.truthy j
  · rw [if_pos ht] at h
    cases hj : JVal.toNumber j with
    | nan => rw [hj] at h; simp [JsNumber.max0] at h
    | val x =>
        rw [hj] at h
        simp [JsNumber.max0] at h
        rw [← h]
        exact le_max_left _ _
  · rw [if_neg ht] at h
    exact absurd h (by simp)

/-- A parsed payload whose fiber field is a truthy non-numeric string. -/
def pBadFiber : ParsedAnalysis :=
  { pAllAbsent with
      name := some "Garden Salad"
      calories := JVal.num 250
      fiber := JVal.str "lots" }

/-- A parsed payload whose fiber field is the number 7. -/
def pGoodFiber : ParsedAnalysis := { pAllAbsent with fiber := JVal.num 7 }

/-- A finite nonnegative JavaScript number; `NaN` is not one. -/
def IsNonnegNutrient : JsNumber → Prop
  | JsNumber.nan => False
  | JsNumber.val q => 0 ≤ q

/-- Claim C2 counterexample: a truthy non-numeric fiber value ("lots")
reaches `Math.max(0, Number(...))` without a `|| 0` guard, so the
returned estimate carries fiber = NaN — a present nutrient field that is
not a nonnegative number. -/
theorem C2_counterexample :
    (Srv.analyzeMealImage (some "sk-live") none (CallOutcome.parsed pBadFiber)
      randA).1.fiber = some JsNumber.nan ∧ ¬ IsNonnegNutrient JsNumber.nan := by
  constructor
  · decide
  · intro h; exact h

/-- Claim C2 (amended): the required fields calories/protein/carbs/fat
are always nonnegative and confidence always lies in [0,100], on every
path and for every model output; missing required fields get the safe
defaults ("Unknown Food", 0); an optional nutrient field that is a
finite number is nonnegative (a truthy non-numeric value yields `NaN`
instead, see the counterexample); and the update operation preserves the
required bounds. -/
theorem C2_theorem :
    (∀ key u o r, requiredBoundsOk (Srv.analyzeMealImage key u o r).1) ∧
    (∀ key u o r (q : ℚ),
      ((Srv.analyzeMealImage key u o r).1.fiber = some (JsNumber.val q) → 0 ≤ q) ∧
      ((Srv.analyzeMealImage key u o r).1.sugar = some (JsNumber.val q) → 0 ≤ q) ∧
      ((Srv.analyzeMealImage key u o r).1.sodium = some (JsNumber.val q) → 0 ≤ q)) ∧
    (∀ p : ParsedAnalysis, p.name = none → (parseAnalysisResult p).name = "Unknown Food") ∧
    (∀ p : ParsedAnalysis, p.calories = JVal.undef → (parseAnalysisResult p).calories = 0) ∧
    (∀ key orig t o r, requiredBoundsOk orig →
      requiredBoundsOk (Doc.updateMealAnalysis key orig t o r).1) := by
  refine ⟨?_, ?_, ?_, ?_, ?_⟩
  · intro key u o r
    rcases analyze_cases key u o r with h | ⟨p, _, h⟩
    · rw [h]; exact getMockAnalysis_bounds u r
    · rw [h]; exact parseAnalysis_bounds p
  · intro key u o r q
    rcases analyze_cases key u o r with h | ⟨p, _, h⟩
    · have h4 := randScaled_nonneg r 4 5 (by norm_num)
      have h5 := randScaled_nonneg r 5 5 (by norm_num)
      have h6 := randScaled_nonneg r 6 300 (by norm_num)
      refine ⟨?_, ?_, ?_⟩
      · rw [h, getMockAnalysis_fiber]
        intro hf
        simp at hf
        linarith
      · rw [h, getMockAnalysis_sugar]
        intro hf
        simp at hf
        linarith
      · rw [h, getMockAnalysis_sodium]
        intro hf
        simp at hf
        linarith
    · refine ⟨?_, ?_, ?_⟩ <;> rw [h] <;> intro hf
      · exact optNutrient_nonneg p.fiber q hf
      · exact optNutrient_nonneg p.sugar q hf
      · exact optNutrient_nonneg p.sodium q hf
  · intro p h
    simp [parseAnalysisResult, h, strOr]
  · intro p h
    simp [parseAnalysisResult, h, JVal.toNumber, JsNumber.orDefault]
  · intro key orig t o r hOrig
    rcases update_cases key orig t o r with h | ⟨p, _, h⟩
    · rw [h]; exact getMockUpdate_bounds orig t r hOrig
    · rw [h]; exact parseUpdate_bounds orig p

/-- Claim C2 witness: concrete instances of each guarded part — a
numeric fiber of 7 is accepted as nonnegative, the all-absent payload
gets the safe defaults, and a concrete bounded original stays bounded
through the update operation. -/
theorem C2_witness :
    (0 : ℚ) ≤ 7 ∧
    (parseAnalysisResult pAllAbsent).name = "Unknown Food" ∧
    (parseAnalysisResult pAllAbsent).calories = 0 ∧
    requiredBoundsOk (Doc.updateMealAnalysis (some "sk-live") origMeal "extra cheese"
      CallOutcome.transportError randA).1 :=
  ⟨(C2_theorem.2.1 (some "sk-live") none (CallOutcome.parsed pGoodFiber) randA 7).1
     (by decide),
   C2_theorem.2.2.1 pAllAbsent rfl,
   C2_theorem.2.2.2.1 pAllAbsent rfl,
   C2_theorem.2.2.2.2 (some "sk-live") origMeal "extra cheese" CallOutcome.transportError
     randA
     ⟨by norm_num [origMeal], by norm_num [origMeal], by norm_num [origMeal],
      by norm_num [origMeal], by norm_num [origMeal], by norm_num [origMeal]⟩⟩

/-! Claim C4. -/

/-- Claim C4: every public operation of both copies is total — for
every input and every outcome of the single external call it resolves
to its typed result, which is either the corresponding fallback value
or the coercion of a successfully parsed payload; no failure outcome
escapes to the caller. -/
theorem C4_theorem :
    (∀ key u o r, (Srv.analyzeMealImage key u o r).1 = Srv.getMockAnalysis u r ∨
      ∃ p, o = CallOutcome.parsed p ∧
        (Srv.analyzeMealImage key u o r).1 = parseAnalysisResult p) ∧
    (∀ key userProfile o r,
      (Srv.generateMealPlan key userProfile o r).1 =
        generateFallbackMealPlan userProfile r ∨
      ∃ p l, o = CallOutcome.parsed p ∧ p.weekly_plan = WeeklyPlanField.arr l ∧
        (Srv.generateMealPlan key userProfile o r).1 = acceptedPlan p l) ∧
    (∀ key userProfile o r,
      (Doc.generateMealPlan key userProfile o r).1 =
        generateFallbackMealPlan userProfile r ∨
      ∃ p l, o = CallOutcome.parsed p ∧ p.weekly_plan = WeeklyPlanField.arr l ∧
        (Doc.generateMealPlan key userProfile o r).1 = acceptedPlan p l) ∧
    (∀ key request o r,
      (Srv.generateReplacementMeal key request o r).1 =
        generateFallbackReplacementMeal request r ∨
      ∃ m, o = CallOutcome.parsed m ∧
        (Srv.generateReplacementMeal key request o r).1 = m) ∧
    (∀ key request o r,
      (Doc.generateReplacementMeal key request o r).1 =
        generateFallbackReplacementMeal request r ∨
      ∃ m, o = CallOutcome.parsed m ∧
        (Doc.generateReplacementMeal key request o r).1 = m) ∧
    (∀ key orig t o r,
      (Doc.updateMealAnalysis key orig t o r).1 = Doc.getMockUpdate orig t r ∨
      ∃ p, o = CallOutcome.parsed p ∧
        (Doc.updateMealAnalysis key orig t o r).1 = Doc.parseUpdateResult orig p) ∧
    (∀ key o, (Srv.generateNutritionInsights key o).1 = [] ∨
      ∃ s, o = CallOutcome.parsed s ∧ (Srv.generateNutritionInsights key o).1 =
        (if s = "" then []
         else ((s.splitOn "\n").filter (fun line => line.trim != "")).take 3)) ∧
    (∀ key o, (Doc.generateNutritionInsights key o).1 = [] ∨
      ∃ l, o = CallOutcome.parsed (some l) ∧
        (Doc.generateNutritionInsights key o).1 = l) :=
  ⟨analyze_cases, srvPlan_cases, docPlan_cases, srvRepl_cases, docRepl_cases,
   update_cases, srvInsights_cases, docInsights_cases⟩

/-! Claim C5. -/

/-- Claim C5 counterexample: in the README copy the placeholder key is
treated as a configured key — `generateNutritionInsights` performs a
network attempt and returns the parsed insights instead of taking the
fallback branch immediately. -/
theorem C5_counterexample :
    (Doc.generateNutritionInsights (some placeholderKey)
      (CallOutcome.parsed (some ["tip"]))).2 = 1 ∧
    (Doc.generateNutritionInsights (some placeholderKey)
      (CallOutcome.parsed (some ["tip"]))).1 = ["tip"] ∧
    (1 : ℕ) ≠ 0 := by
  refine ⟨by decide, by decide, by decide⟩

/-- Claim C5 (amended): in the server copy an absent, empty or
placeholder key makes every operation take its fallback branch with
zero network attempts (insights return the empty list); in the README
copy only an absent or empty key does — the placeholder is not treated
specially there (see the counterexample). -/
theorem C5_theorem :
    (∀ key, srvKeyOk key = false ↔
      key = none ∨ key = some "" ∨ key = some placeholderKey) ∧
    (∀ key u o r, srvKeyOk key = false →
      Srv.analyzeMealImage key u o r = (Srv.getMockAnalysis u r, 0)) ∧
    (∀ key userProfile o r, srvKeyOk key = false →
      Srv.generateMealPlan key userProfile o r =
        (generateFallbackMealPlan userProfile r, 0)) ∧
    (∀ key request o r, srvKeyOk key = false →
      Srv.generateReplacementMeal key request o r =
        (generateFallbackReplacementMeal request r, 0)) ∧
    (∀ key o, srvKeyOk key = false → Srv.generateNutritionInsights key o = ([], 0)) ∧
    (∀ key, docKeyTruthy key = false ↔ key = none ∨ key = some "") ∧
    (∀ key orig t o r, docKeyTruthy key = false →
      Doc.updateMealAnalysis key orig t o r = (Doc.getMockUpdate orig t r, 0)) ∧
    (∀ key userProfile o r, docKeyTruthy key = false →
      Doc.generateMealPlan key userProfile o r =
        (generateFallbackMealPlan userProfile r, 0)) ∧
    (∀ key request o r, docKeyTruthy key = false →
      Doc.generateReplacementMeal key request o r =
        (generateFallbackReplacementMeal request r, 0)) ∧
    (∀ key o, docKeyTruthy key = false → Doc.generateNutritionInsights key o = ([], 0)) := by
  refine ⟨?_, ?_, ?_, ?_, ?_, ?_, ?_, ?_, ?_, ?_⟩
  · intro key
    cases key with
    | none => simp [srvKeyOk]
    | some s => simp [srvKeyOk]; tauto
  · intro key u o r h
    simp [Srv.analyzeMealImage, h]
  · intro key userProfile o r h
    simp [Srv.generateMealPlan, h]
  · intro key request o r h
    simp [Srv.generateReplacementMeal, h]
  · intro key o h
    simp [Srv.generateNutritionInsights, h]
  · intro key
    cases key with
    | none => simp [docKeyTruthy]
    | some s => simp [docKeyTruthy]
  · intro key orig t o r h
    simp [Doc.updateMealAnalysis, h]
  · intro key userProfile o r h
    simp [Doc.generateMealPlan, h]
  · intro key request o r h
    simp [Doc.generateReplacementMeal, h]
  · intro key o h
    simp [Doc.generateNutritionInsights, h]

/-- Claim C5 witness: with the placeholder key the server copy's
operations take the fallback branch with zero attempts; with no key the
README copy's do. -/
theorem C5_witness :
    Srv.analyzeMealImage (some placeholderKey) none CallOutcome.transportError randA =
      (Srv.getMockAnalysis none randA, 0) ∧
    Srv.generateNutritionInsights (some placeholderKey) (CallOutcome.parsed "hi") =
      ([], 0) ∧
    Doc.updateMealAnalysis none origMeal "hello" CallOutcome.transportError randA =
      (Doc.getMockUpdate origMeal "hello" randA, 0) ∧
    Doc.generateNutritionInsights none (CallOutcome.parsed (some ["a"])) = ([], 0) :=
  ⟨C5_theorem.2.1 (some placeholderKey) none CallOutcome.transportError randA (by decide),
   C5_theorem.2.2.2.2.1 (some placeholderKey) (CallOutcome.parsed "hi") (by decide),
   C5_theorem.2.2.2.2.2.2.1 none origMeal "hello" CallOutcome.transportError randA
     (by decide),
   C5_theorem.2.2.2.2.2.2.2.2.2 none (CallOutcome.parsed (some ["a"])) (by decide)⟩
